import Mathlib

/-!
# Lv2ViewBase: the editor view of an LV2 plugin

A shallow embedding of `src/gui/Lv2ViewBase.cpp`: the port visitor
`SetupWidget::visit`, the per-processor constructor `Lv2ViewProc::Lv2ViewProc`,
the aggregate constructor `Lv2ViewBase::Lv2ViewBase` and the slot
`Lv2ViewBase::toggleHelp`.

Conventions of the embedding:

* Objects mutated in place become records passed explicitly; a constructor
  returns the record it has built.
* Calls into the host toolkit that only record something (adding a widget to a
  layout, registering a control, docking a subwindow) append to a list kept in
  the record, in call order.
* The plugin-discovery library is a record of functions (`Lilv`), so every
  theorem holds for whatever metadata the library answers.
* Qt parent pointers and object ownership are not modelled, nor is the release
  of node collections (`lilv_nodes_free`), nor are the cosmetic setters (size
  policy, font, icon, help text, accept-drops flag).
-/

set_option linter.dupNamespace false

namespace Lv2View

/-! ## Numbers -/

/-- A value of the C++ type `float`: a NaN, an infinity, or a finite number.
Every finite `float` is a rational number, and the comparison operators of
C++ on `float` are exact, so only the value is kept. -/
inductive CFloat where
  | nan
  | inf (negative : Bool)
  | fin (q : ℚ)
deriving DecidableEq

/-- The C++ operator `<=` on `float`: false as soon as one side is a NaN,
the order of the extended real line otherwise. -/
def CFloat.le : CFloat → CFloat → Bool
  | .nan, _ => false
  | _, .nan => false
  | .inf true, _ => true
  | .inf false, .inf false => true
  | .inf false, _ => false
  | .fin _, .inf negative => !negative
  | .fin a, .fin b => decide (a ≤ b)

/-- The literal `9.0f`. -/
def nineF : CFloat := .fin 9

/-- The C++ operator `%` on `int`: undefined for a zero divisor (`none`),
truncating towards zero otherwise. -/
def cMod (a b : Int) : Option Int :=
  if b = 0 then none else some (Int.tmod a b)

/-- The C++ operator `/` on `int`: undefined for a zero divisor (`none`),
truncating towards zero otherwise. -/
def cDiv (a b : Int) : Option Int :=
  if b = 0 then none else some (Int.tdiv a b)

/-! ## The plugin-discovery library -/

/-- A plugin handle (`const LilvPlugin*`). -/
abbrev LilvPlugin := Nat

/-- A port handle (`const LilvPort*`). -/
abbrev LilvPort := Nat

/-- An RDF node (`LilvNode`), kept as its string form. -/
structure LilvNode where
  str : String
deriving DecidableEq, Repr

/-- The string form of a node. -/
def lilv_node_as_string (node : LilvNode) : String := node.str

/-- A collection of nodes (`LilvNodes*`), in iteration order; the null
collection iterates like the empty one. -/
abbrev LilvNodes := List LilvNode

/-- The answers of the plugin-discovery library, one field per operation the
file calls. -/
structure Lilv where
  lilv_plugin_get_value : LilvPlugin → LilvNode → LilvNodes
  lilv_port_get_value : LilvPlugin → LilvPort → LilvNode → LilvNodes
  lilv_port_get_symbol : LilvPlugin → LilvPort → LilvNode
  lilv_port_get_name : LilvPlugin → LilvPort → LilvNode

/-- The macro `LILV_NS_RDFS` of lilv. -/
def LILV_NS_RDFS : String := "http://www.w3.org/2000/01/rdf-schema#"

/-- Modelled from the spec: `Lv2Manager::uri`, reached through
`Lv2ViewProc::uri` and `Lv2ViewBase::uri`, is missing from the sources; it is
the URI-intern helper that turns a URI string into a node handle. -/
def uri (uriStr : String) : LilvNode := ⟨uriStr⟩

/-- The loop `LILV_FOREACH(nodes, itr, props) { body; break; }`: the body runs
on the first node of the collection, then `break` leaves the loop; on an empty
collection the body never runs. -/
def LILV_FOREACH_break {σ : Type} (props : LilvNodes) (body : LilvNode → σ → σ) (s : σ) : σ :=
  match props with
  | [] => s
  | nod :: _ => body nod s

/-! ## Ports -/

namespace Lv2Ports

/-- Modelled from the spec: the flow direction of a port (`Lv2Ports::Flow`,
declared in a header that is missing): Input or Output. -/
inductive Flow where
  | Input
  | Output
deriving DecidableEq, Repr

/-- The visualization class of a control port (`Lv2Ports::Vis`), with the four
values the `switch` of the visitor enumerates. -/
inductive Vis where
  | None
  | Integer
  | Enumeration
  | Toggled
deriving DecidableEq, Repr

/-- Modelled from the spec: the port classes are declared in a header that is
missing. What every port carries, as far as the file reads it: the owning
plugin, the port handle and the flow. -/
structure PortBase where
  m_plugin : LilvPlugin
  m_port : LilvPort
  m_flow : Flow
deriving DecidableEq

/-- Modelled from the spec: a Control port carries, on top of the common part, a
visualization class and a numeric range, of which the file reads the
maximum. -/
structure Control extends PortBase where
  m_vis : Vis
  m_max : CFloat
deriving DecidableEq

/-- Modelled from the spec: the port variant (`Lv2Ports::PortBase` and its
subclasses, declared in a header that is missing): Control, Audio, CV, Event
and the rest. -/
inductive Port where
  | Control (port : Control)
  | Audio (port : PortBase)
  | Cv (port : PortBase)
  | Event (port : PortBase)
  | Unknown (port : PortBase)
deriving DecidableEq

/-- The common part of a port of any variant. -/
def Port.base : Port → PortBase
  | .Control port => port.toPortBase
  | .Audio port => port
  | .Cv port => port
  | .Event port => port
  | .Unknown port => port

/-- Modelled from the spec: `PortBase::name()` is missing from the sources; it
is the display name (human) of the port, which the library answers. -/
def PortBase.name (lilv : Lilv) (port : PortBase) : String :=
  lilv_node_as_string (lilv.lilv_port_get_name port.m_plugin port.m_port)

end Lv2Ports

/-! ## Control widgets -/

/-- Modelled from the spec: the control widget classes are declared in a header
that is missing. The four the visitor constructs: `KnobControl`, `LcdControl`
with its digit count, `ComboControl`, `CheckControl`. -/
inductive ControlKind where
  | KnobControl
  | LcdControl (numDigits : Int)
  | ComboControl
  | CheckControl
deriving DecidableEq, Repr

/-- Modelled from the spec: a control widget carries a display label and a top
widget used for tooltips. Kept here: its kind, the label given with `setText`
and the tooltip given to its top widget with `setToolTip`; `none` while the
setter has not been called. -/
structure Control where
  kind : ControlKind
  text : Option String
  toolTip : Option String
deriving DecidableEq, Repr

/-- The expression `new XControl(...)`: a widget of the given kind, no label and
no tooltip yet. -/
def Control.new (kind : ControlKind) : Control := ⟨kind, none, none⟩

/-- The call `control->setText(text)`. -/
def Control.setText (self : Control) (text : String) : Control :=
  ⟨self.kind, some text, self.toolTip⟩

/-- The call `control->topWidget()->setToolTip(tip)`. -/
def Control.setToolTip (self : Control) (tip : String) : Control :=
  ⟨self.kind, self.text, some tip⟩

/-! ## The port visitor -/

/-- The local class `SetupWidget`: the comment predicate (input) and the
control built by the visit (output, null at first). -/
structure SetupWidget where
  m_commentUri : LilvNode
  m_control : Option Control
deriving DecidableEq

/-- The method `SetupWidget::visit(Lv2Ports::Control&)`. -/
def SetupWidget.visit (lilv : Lilv) (self : SetupWidget) (port : Lv2Ports.Control) :
    SetupWidget :=
  if port.m_flow = Lv2Ports.Flow.Input then
    let created : Control :=
      match port.m_vis with
      | .None => Control.new .KnobControl
      | .Integer => Control.new (.LcdControl (if CFloat.le port.m_max nineF then 1 else 2))
      | .Enumeration => Control.new .ComboControl
      | .Toggled => Control.new .CheckControl
    let labelled := created.setText (port.toPortBase.name lilv)
    let props := lilv.lilv_port_get_value port.m_plugin port.m_port self.m_commentUri
    let tipped := LILV_FOREACH_break props
      (fun nod control => control.setToolTip (lilv_node_as_string nod)) labelled
    ⟨self.m_commentUri, some tipped⟩
  else self

/-- Modelled from the spec: `PortBase::accept` and the arms of
`Lv2Ports::Visitor` that `SetupWidget` does not override are missing from the
sources. The visitor is a polymorphic operation over the port variant: a
Control port reaches `SetupWidget::visit`, every other variant yields
nothing. -/
def Lv2Ports.Port.accept (lilv : Lilv) (port : Lv2Ports.Port) (v : SetupWidget) : SetupWidget :=
  match port with
  | .Control c => v.visit lilv c
  | .Audio _ => v
  | .Cv _ => v
  | .Event _ => v
  | .Unknown _ => v

/-! ## The per-processor view -/

/-- Modelled from the spec: a processor (`Lv2Proc`, declared in a header that is
missing) exposes its ports as an ordered sequence. -/
structure Lv2Proc where
  getPorts : List Lv2Ports.Port
deriving DecidableEq

/-- One call `addControl(control, key, name, link)`. -/
structure Registration where
  control : Control
  key : String
  name : String
  link : Bool
deriving DecidableEq, Repr

/-- The per-processor view: what the base `LinkedModelGroupView` was constructed
with, and the `addControl` calls made on it, in call order. The trailing
argument `name` of the constructor is never given by the file and is left
out. -/
structure Lv2ViewProc where
  ctrlBase : Lv2Proc
  colNum : Int
  nProc : Int
  registered : List Registration
deriving DecidableEq

/-- Modelled from the spec: `LinkedModelGroupView::addControl` is missing from
the sources; it registers the widget under its key and display name, with the
initial link flag. The call is recorded after the earlier ones. -/
def Lv2ViewProc.addControl (self : Lv2ViewProc) (control : Control) (key name : String)
    (link : Bool) : Lv2ViewProc :=
  ⟨self.ctrlBase, self.colNum, self.nProc, self.registered ++ [⟨control, key, name, link⟩]⟩

/-- The body of the `for` loop over the ports in `Lv2ViewProc::Lv2ViewProc`. -/
def Lv2ViewProc.forPort (lilv : Lilv) (commentUri : LilvNode) (self : Lv2ViewProc)
    (port : Lv2Ports.Port) : Lv2ViewProc :=
  let setup : SetupWidget := ⟨commentUri, none⟩
  let setup := port.accept lilv setup
  match setup.m_control with
  | some control =>
      self.addControl control
        (lilv_node_as_string (lilv.lilv_port_get_symbol port.base.m_plugin port.base.m_port))
        (port.base.name lilv)
        false
  | none => self

/-- The constructor `Lv2ViewProc::Lv2ViewProc(parent, ctrlBase, colNum, nProc)`. -/
def Lv2ViewProc.Lv2ViewProc (lilv : Lilv) (ctrlBase : Lv2Proc) (colNum nProc : Int) :
    Lv2ViewProc :=
  let commentUri := uri (LILV_NS_RDFS ++ "comment")
  ctrlBase.getPorts.foldl (Lv2ViewProc.forPort lilv commentUri) ⟨ctrlBase, colNum, nProc, []⟩

/-! ## The aggregate view -/

/-- A text label (`QLabel`): its text and the word-wrap flag. -/
structure QLabel where
  text : String
  wordWrap : Bool
deriving DecidableEq, Repr

/-- A push button (`QPushButton`): its caption, as handed to `QObject::tr`, and
the checkable and checked flags. -/
structure QPushButton where
  text : String
  checkable : Bool
  checked : Bool
deriving DecidableEq, Repr

/-- A subwindow of the host main window: the widget it shows, whether it is
visible, whether it is on top of its siblings, and the delete-on-close
attribute. -/
structure SubWindow where
  widget : QLabel
  visible : Bool
  onTop : Bool
  deleteOnClose : Bool
deriving DecidableEq, Repr

/-- The call `window->show()`. -/
def SubWindow.show (self : SubWindow) : SubWindow :=
  ⟨self.widget, true, self.onTop, self.deleteOnClose⟩

/-- The call `window->raise()`. -/
def SubWindow.raise (self : SubWindow) : SubWindow :=
  ⟨self.widget, self.visible, true, self.deleteOnClose⟩

/-- The call `window->hide()`. -/
def SubWindow.hide (self : SubWindow) : SubWindow :=
  ⟨self.widget, false, self.onTop, self.deleteOnClose⟩

/-- The call `window->setAttribute(Qt::WA_DeleteOnClose, enabled)`. -/
def SubWindow.setDeleteOnClose (self : SubWindow) (enabled : Bool) : SubWindow :=
  ⟨self.widget, self.visible, self.onTop, enabled⟩

/-- The host main window, as far as the view depends on it: the state in which
it hands out a fresh subwindow. -/
structure MainWindow where
  freshVisible : Bool
  freshOnTop : Bool
  freshDeleteOnClose : Bool
deriving DecidableEq, Repr

/-- Modelled from the spec: `MainWindow::addWindowedWidget` is missing from the
sources; it docks the widget into the host and returns the subwindow that
holds it. -/
def MainWindow.addWindowedWidget (self : MainWindow) (widget : QLabel) : SubWindow :=
  ⟨widget, self.freshVisible, self.freshOnTop, self.freshDeleteOnClose⟩

/-- The link-channels indicator (`LedCheckBox*`), a handle. -/
abbrev LedCheckBox := Nat

/-- Modelled from the spec: the control base (`Lv2ControlBase`, declared in a
header that is missing) owns an ordered sequence of processors, a plugin handle
shared across them, and the native-GUI property. -/
structure Lv2ControlBase where
  getPlugin : LilvPlugin
  controls : List Lv2Proc
  hasGui : Bool
deriving DecidableEq

/-- The rows of the grid (`Lv2ViewBase::Rows`). -/
inductive Rows where
  | ButtonRow
  | ProcRow
  | LinkChannelsRow
deriving DecidableEq, Repr

/-- What the button box holds: a button (`addWidget`) or a stretch
(`addStretch`). -/
inductive BoxItem where
  | widget (button : QPushButton) (stretch : Int)
  | stretch (factor : Int)
deriving DecidableEq, Repr

/-- What is attached to the grid: the button box
(`addLayout(btnBox, row, column, rowSpan, columnSpan)`), a per-processor view
(`addWidget(vpr, row, column)`) or the link indicator
(`addWidget(led, row, column, rowSpan, columnSpan)`). -/
inductive GridItem where
  | layout (btnBox : List BoxItem) (row : Rows) (column rowSpan columnSpan : Int)
  | procView (vpr : Lv2ViewProc) (row : Rows) (column : Int)
  | led (led : LedCheckBox) (row : Rows) (column rowSpan columnSpan : Int)
deriving DecidableEq

/-- The aggregate view (`Lv2ViewBase`): its members, the two layouts its
constructor fills, and the widgets it has docked into the host main window. -/
structure Lv2ViewBase where
  m_reloadPluginButton : Option QPushButton
  m_toggleUIButton : Option QPushButton
  m_helpButton : Option QPushButton
  m_helpWindow : Option SubWindow
  m_procViews : List Lv2ViewProc
  btnBox : List BoxItem
  grid : List GridItem
  docked : List QLabel
deriving DecidableEq

/-- The view when the constructor body starts: every pointer member null, the
list of per-processor views empty, both layouts empty, nothing docked. -/
def Lv2ViewBase.empty : Lv2ViewBase :=
  ⟨none, none, none, none, [], [], [], []⟩

/-- The block guarded by the first `if (false)`: the Reload button. -/
def Lv2ViewBase.addReloadButton (self : Lv2ViewBase) : Lv2ViewBase :=
  let button : QPushButton := ⟨"Reload Plugin", false, false⟩
  { self with m_reloadPluginButton := some button,
              btnBox := self.btnBox ++ [.widget button 0] }

/-- The block guarded by the second `if (false)`: the Show GUI button. -/
def Lv2ViewBase.addToggleUIButton (self : Lv2ViewBase) : Lv2ViewBase :=
  let button : QPushButton := ⟨"Show GUI", true, false⟩
  { self with m_toggleUIButton := some button,
              btnBox := self.btnBox ++ [.widget button 0] }

/-- The body of the `LILV_FOREACH` loop over the comment nodes of the plugin:
the information label, the Help button, the docked and hidden help window. -/
def Lv2ViewBase.addHelp (mainWindow : MainWindow) (node : LilvNode) (self : Lv2ViewBase) :
    Lv2ViewBase :=
  let infoLabel : QLabel := ⟨lilv_node_as_string node, true⟩
  let helpButton : QPushButton := ⟨"Help", true, false⟩
  let helpWindow := mainWindow.addWindowedWidget infoLabel
  let helpWindow := helpWindow.setDeleteOnClose false
  let helpWindow := helpWindow.hide
  { self with m_helpButton := some helpButton,
              btnBox := self.btnBox ++ [.widget helpButton 0],
              m_helpWindow := some helpWindow,
              docked := self.docked ++ [infoLabel] }

/-- The constructor up to and including the attachment of the button box
(the statements before `nProcs` is read). -/
def Lv2ViewBase.buildButtons (lilv : Lilv) (mainWindow : MainWindow) (m_colNum : Int)
    (ctrlBase : Lv2ControlBase) : Lv2ViewBase :=
  let self := Lv2ViewBase.empty
  let self := if false then self.addReloadButton else self
  let self := if false then self.addToggleUIButton else self
  let self := { self with btnBox := self.btnBox ++ [.stretch 1] }
  let props := lilv.lilv_plugin_get_value ctrlBase.getPlugin (uri (LILV_NS_RDFS ++ "comment"))
  let self := LILV_FOREACH_break props (Lv2ViewBase.addHelp mainWindow) self
  if self.m_reloadPluginButton.isSome || self.m_toggleUIButton.isSome
      || self.m_helpButton.isSome then
    { self with grid := self.grid ++ [.layout self.btnBox .ButtonRow 0 1 m_colNum] }
  else self

/-- The body of the `for` loop over the processor indices. -/
def Lv2ViewBase.forProc (lilv : Lilv) (ctrlBase : Lv2ControlBase) (colsEach nProcs : Int)
    (self : Lv2ViewBase) (i : Nat) : Lv2ViewBase :=
  match ctrlBase.controls[i]? with
  | some proc =>
      let vpr := Lv2ViewProc.Lv2ViewProc lilv proc colsEach nProcs
      { self with grid := self.grid ++ [.procView vpr .ProcRow i],
                  m_procViews := self.m_procViews ++ [vpr] }
  | none => self

/-- The statements after the loop: the link indicator, when the base class
has one. -/
def Lv2ViewBase.addLinkLed (m_colNum : Int) (globalLinkLed : Option LedCheckBox)
    (self : Lv2ViewBase) : Lv2ViewBase :=
  match globalLinkLed with
  | some led => { self with grid := self.grid ++ [.led led .LinkChannelsRow 0 1 m_colNum] }
  | none => self

/-- The slot `Lv2ViewBase::toggleHelp(visible)`. -/
def Lv2ViewBase.toggleHelp (self : Lv2ViewBase) (visible : Bool) : Lv2ViewBase :=
  match self.m_helpWindow with
  | some helpWindow =>
      if visible then { self with m_helpWindow := some helpWindow.show.raise }
      else { self with m_helpWindow := some helpWindow.hide }
  | none => self

/-- How a run of the constructor ends, with the view as it stands at that
point: it completes; or `Q_ASSERT` fails; or an `int` division by zero is
evaluated, which C++ leaves undefined. -/
inductive Outcome where
  | completed (view : Lv2ViewBase)
  | assertFailed (view : Lv2ViewBase)
  | divisionByZero (view : Lv2ViewBase)
deriving DecidableEq

/-- The view carried by an outcome. -/
def Outcome.view : Outcome → Lv2ViewBase
  | .completed view => view
  | .assertFailed view => view
  | .divisionByZero view => view

/-- Modelled from the spec: `Q_ASSERT` is a macro of Qt; a failed assertion is
fatal whatever the build configuration. The result is `none` when the test is
false and the run ends there. -/
def Q_ASSERT (test : Bool) : Option Unit :=
  if test then some () else none

/-- The constructor `Lv2ViewBase::Lv2ViewBase(meAsWidget, ctrlBase)`.
The member `m_colNum` and the result of `globalLinkLed()` come from
declarations that are missing from the sources and are parameters here. The
processor count is taken to fit in an `int`. -/
def Lv2ViewBase.Lv2ViewBase (lilv : Lilv) (mainWindow : MainWindow) (m_colNum : Int)
    (globalLinkLed : Option LedCheckBox) (ctrlBase : Lv2ControlBase) : Outcome :=
  let self := Lv2ViewBase.buildButtons lilv mainWindow m_colNum ctrlBase
  let nProcs : Int := (ctrlBase.controls.length : Int)
  match cMod m_colNum nProcs with
  | none => .divisionByZero self
  | some remainder =>
      match Q_ASSERT (remainder == 0) with
      | none => .assertFailed self
      | some () =>
          match cDiv m_colNum nProcs with
          | none => .divisionByZero self
          | some colsEach =>
              let self := (List.range nProcs.toNat).foldl
                (Lv2ViewBase.forProc lilv ctrlBase colsEach nProcs) self
              .completed (self.addLinkLed m_colNum globalLinkLed)

/-! ## The vocabulary of the specification -/

/-- The widget variant of the specification: Knob, Lcd, Combo, Check. -/
inductive Widget where
  | Knob
  | Lcd
  | Combo
  | Check
deriving DecidableEq, Repr

/-- The variant of a constructed control, its digit count forgotten. -/
def ControlKind.widget : ControlKind → Widget
  | .KnobControl => .Knob
  | .LcdControl _ => .Lcd
  | .ComboControl => .Combo
  | .CheckControl => .Check

/-- The mapping table of the specification, written from its words:
None gives Knob, Integer gives Lcd, Enumeration gives Combo, Toggled gives
Check. -/
def widgetTable : Lv2Ports.Vis → Widget
  | .None => .Knob
  | .Integer => .Lcd
  | .Enumeration => .Combo
  | .Toggled => .Check

/-- Whether a port is an input Control port, written from the words of the
specification: a Control port whose flow is Input. -/
def Lv2Ports.Port.isInputControl : Lv2Ports.Port → Bool
  | .Control port => decide (port.m_flow = Lv2Ports.Flow.Input)
  | _ => false

/-- The LV2 symbol string of a port, as the constructor reads it. -/
def Lv2Ports.Port.symbol (lilv : Lilv) (port : Lv2Ports.Port) : String :=
  lilv_node_as_string (lilv.lilv_port_get_symbol port.base.m_plugin port.base.m_port)

/-- The comment predicate both constructors pass to the library. -/
def commentUri : LilvNode := uri (LILV_NS_RDFS ++ "comment")

/-- The control a fresh visitor leaves behind after visiting one port. -/
def Lv2Ports.Port.visited (lilv : Lilv) (port : Lv2Ports.Port) : Option Lv2View.Control :=
  (port.accept lilv ⟨commentUri, none⟩).m_control

/-- The registration the loop body makes for one port, if it makes one. -/
def Lv2Ports.Port.registration (lilv : Lilv) (port : Lv2Ports.Port) : Option Registration :=
  (port.visited lilv).map (fun control => ⟨control, port.symbol lilv, port.base.name lilv, false⟩)

/-- Whether a run of the constructor accepted its input. -/
def Outcome.accepted : Outcome → Bool
  | .completed _ => true
  | _ => false

/-- Whether a run of the constructor ended in a failed assertion. -/
def Outcome.assertionFailure : Outcome → Bool
  | .assertFailed _ => true
  | _ => false

/-! ## Concrete plugins -/

/-- A library with no comment metadata; ports 0, 1 and 2 are called gain,
steps and bypass. -/
def plainLilv : Lilv where
  lilv_plugin_get_value := fun _ _ => []
  lilv_port_get_value := fun _ _ _ => []
  lilv_port_get_symbol := fun _ port =>
    match port with
    | 0 => ⟨"gain"⟩
    | 1 => ⟨"steps"⟩
    | _ => ⟨"bypass"⟩
  lilv_port_get_name := fun _ port =>
    match port with
    | 0 => ⟨"Gain"⟩
    | 1 => ⟨"Steps"⟩
    | _ => ⟨"Bypass"⟩

/-- A library whose plugin carries the comments A and B, and whose ports carry
the comment cutoff frequency, all under the rdfs comment predicate. -/
def commentedLilv : Lilv where
  lilv_plugin_get_value := fun _ predicate =>
    if predicate = ⟨"http://www.w3.org/2000/01/rdf-schema#comment"⟩ then [⟨"A"⟩, ⟨"B"⟩] else []
  lilv_port_get_value := fun _ _ predicate =>
    if predicate = ⟨"http://www.w3.org/2000/01/rdf-schema#comment"⟩ then [⟨"cutoff frequency"⟩]
    else []
  lilv_port_get_symbol := fun _ _ => ⟨"cutoff"⟩
  lilv_port_get_name := fun _ _ => ⟨"Cutoff"⟩

/-- An input Control port of plugin 0. -/
def inputControl (port : LilvPort) (vis : Lv2Ports.Vis) (max : CFloat) : Lv2Ports.Port :=
  .Control ⟨⟨0, port, .Input⟩, vis, max⟩

/-- The processor of the first scenario: three input Control ports, with
visualization None, Integer with maximum 7, and Toggled. -/
def scenarioProc : Lv2Proc :=
  ⟨[inputControl 0 .None (.fin 1), inputControl 1 .Integer (.fin 7),
    inputControl 2 .Toggled (.fin 1)]⟩

/-- The processor of the fourth scenario: one input Control port, Integer with
maximum 42. -/
def cutoffProc : Lv2Proc :=
  ⟨[inputControl 0 .Integer (.fin 42)]⟩

/-- A processor with an audio input, a control output and an input Control
port in between the two. -/
def mixedProc : Lv2Proc :=
  ⟨[.Audio ⟨0, 0, .Input⟩, inputControl 1 .Enumeration (.fin 3),
    .Control ⟨⟨0, 2, .Output⟩, .None, .fin 1⟩]⟩

/-- A host main window that hands out subwindows shown and on top. -/
def shownMainWindow : MainWindow := ⟨true, true, true⟩

/-- A control base without any processor. -/
def emptyBase : Lv2ControlBase := ⟨0, [], false⟩

/-- The control base of the first scenario: one processor. -/
def monoBase : Lv2ControlBase := ⟨0, [scenarioProc], false⟩

/-- The control base of the second and third scenarios: two processors. -/
def stereoBase : Lv2ControlBase := ⟨0, [scenarioProc, scenarioProc], false⟩

/-! ## Lemmas on the per-processor loop -/

/-- The loop body, on a view, appends the registration of the port when it has
one and changes nothing else. -/
theorem forPort_eq (lilv : Lilv) (view : Lv2ViewProc) (port : Lv2Ports.Port) :
    Lv2ViewProc.forPort lilv commentUri view port =
      ⟨view.ctrlBase, view.colNum, view.nProc,
        view.registered ++ (port.registration lilv).toList⟩ := by
  unfold Lv2ViewProc.forPort Lv2Ports.Port.registration Lv2Ports.Port.visited
  cases h : (port.accept lilv ⟨commentUri, none⟩).m_control with
  | none => simp [h]
  | some control => simp [h, Lv2ViewProc.addControl, Lv2Ports.Port.symbol]

/-- The loop over the ports appends, in order, the registrations of the ports
that have one. -/
theorem foldl_forPort (lilv : Lilv) (ports : List Lv2Ports.Port) (view : Lv2ViewProc) :
    ports.foldl (Lv2ViewProc.forPort lilv commentUri) view =
      ⟨view.ctrlBase, view.colNum, view.nProc,
        view.registered ++ ports.filterMap (Lv2Ports.Port.registration lilv)⟩ := by
  induction ports generalizing view with
  | nil => simp
  | cons port rest ih =>
      rw [List.foldl_cons, ih, forPort_eq]
      cases h : port.registration lilv with
      | none => simp [List.filterMap_cons, h]
      | some r => simp [List.filterMap_cons, h]

/-- The per-processor constructor in closed form. -/
theorem ctor_eq (lilv : Lilv) (ctrlBase : Lv2Proc) (colNum nProc : Int) :
    Lv2ViewProc.Lv2ViewProc lilv ctrlBase colNum nProc =
      ⟨ctrlBase, colNum, nProc, ctrlBase.getPorts.filterMap (Lv2Ports.Port.registration lilv)⟩ := by
  have h := foldl_forPort lilv ctrlBase.getPorts ⟨ctrlBase, colNum, nProc, []⟩
  simpa [Lv2ViewProc.Lv2ViewProc, commentUri] using h

/-- A port that is not an input Control port leaves the visitor without a
control. -/
theorem visited_of_not_inputControl (lilv : Lilv) (port : Lv2Ports.Port)
    (h : port.isInputControl = false) : port.visited lilv = none := by
  cases port with
  | Control c =>
      have hf : ¬ c.m_flow = Lv2Ports.Flow.Input := by
        simpa [Lv2Ports.Port.isInputControl] using h
      simp [Lv2Ports.Port.visited, Lv2Ports.Port.accept, SetupWidget.visit, hf]
  | Audio b => rfl
  | Cv b => rfl
  | Event b => rfl
  | Unknown b => rfl

/-- An input Control port leaves the visitor with a control. -/
theorem visited_isSome_of_inputControl (lilv : Lilv) (port : Lv2Ports.Port)
    (h : port.isInputControl = true) : (port.visited lilv).isSome = true := by
  cases port with
  | Control c =>
      have hf : c.m_flow = Lv2Ports.Flow.Input := by
        simpa [Lv2Ports.Port.isInputControl] using h
      simp [Lv2Ports.Port.visited, Lv2Ports.Port.accept, SetupWidget.visit, hf]
  | Audio b => simp [Lv2Ports.Port.isInputControl] at h
  | Cv b => simp [Lv2Ports.Port.isInputControl] at h
  | Event b => simp [Lv2Ports.Port.isInputControl] at h
  | Unknown b => simp [Lv2Ports.Port.isInputControl] at h

/-! ## The port visitor: widget kind, label, digit count, tooltip -/

/-- C1: for every Control port with flow Input, the port visitor constructs a
control whose variant is the one the mapping table gives for the visualization
class of the port (None: Knob, Integer: Lcd, Enumeration: Combo, Toggled:
Check) and whose label is the display name of the port; and the ports
None, Integer with maximum 7, Toggled give the controls Knob, Lcd with one
digit, Check, in that order. -/
theorem visit_follows_widget_table :
    (∀ (lilv : Lilv) (setup : SetupWidget) (port : Lv2Ports.Control),
      port.m_flow = Lv2Ports.Flow.Input →
      ∃ control : Control,
        ((Lv2Ports.Port.Control port).accept lilv setup).m_control = some control ∧
        control.kind.widget = widgetTable port.m_vis ∧
        (port.m_vis = .None → control.kind = .KnobControl) ∧
        (port.m_vis = .Integer → ∃ d, control.kind = .LcdControl d) ∧
        (port.m_vis = .Enumeration → control.kind = .ComboControl) ∧
        (port.m_vis = .Toggled → control.kind = .CheckControl) ∧
        control.text = some (port.toPortBase.name lilv)) ∧
    (Lv2ViewProc.Lv2ViewProc plainLilv scenarioProc 6 1).registered.map
        (fun r => r.control.kind) = [.KnobControl, .LcdControl 1, .CheckControl] := by
  constructor
  · intro lilv setup port hflow
    simp only [Lv2Ports.Port.accept, SetupWidget.visit, hflow, if_true]
    refine ⟨_, rfl, ?_⟩
    · cases hprops : lilv.lilv_port_get_value port.m_plugin port.m_port setup.m_commentUri <;>
        cases hvis : port.m_vis <;>
        simp [LILV_FOREACH_break, Control.setText, Control.setToolTip, Control.new,
          ControlKind.widget, widgetTable]
  · rw [ctor_eq]
    decide

/-- C1, at a concrete port: the input Control port 1 of the first scenario
(Integer, maximum 7) is given an Lcd labelled Steps. -/
theorem visit_follows_widget_table_witness :
    ∃ control : Control,
      ((Lv2Ports.Port.Control ⟨⟨0, 1, .Input⟩, .Integer, .fin 7⟩).accept plainLilv
          ⟨commentUri, none⟩).m_control = some control ∧
      control.kind.widget = .Lcd ∧ control.text = some "Steps" := by
  obtain ⟨control, h1, h2, _, _, _, _, h3⟩ :=
    visit_follows_widget_table.1 plainLilv ⟨commentUri, none⟩
      ⟨⟨0, 1, .Input⟩, .Integer, .fin 7⟩ rfl
  exact ⟨control, h1, h2, h3⟩

/-- C2: a port that is not a Control port, or a Control port whose flow is not
Input, leaves the visitor as it was, so that its control stays null, and the
per-processor constructor registers nothing for it: with or without that port
in the port list the registrations are the same. -/
theorem no_widget_unless_input_control (lilv : Lilv) (port : Lv2Ports.Port)
    (h : ∀ c : Lv2Ports.Control, port = .Control c → c.m_flow ≠ Lv2Ports.Flow.Input) :
    (∀ setup : SetupWidget, port.accept lilv setup = setup) ∧
    (port.accept lilv ⟨commentUri, none⟩).m_control = none ∧
    ∀ (before after : List Lv2Ports.Port) (colNum nProc : Int),
      (Lv2ViewProc.Lv2ViewProc lilv ⟨before ++ port :: after⟩ colNum nProc).registered =
        (Lv2ViewProc.Lv2ViewProc lilv ⟨before ++ after⟩ colNum nProc).registered := by
  have hnot : port.isInputControl = false := by
    cases port with
    | Control c => simpa [Lv2Ports.Port.isInputControl] using h c rfl
    | Audio b => rfl
    | Cv b => rfl
    | Event b => rfl
    | Unknown b => rfl
  have hvis := visited_of_not_inputControl lilv port hnot
  refine ⟨?_, hvis, ?_⟩
  · intro setup
    cases port with
    | Control c => simp [Lv2Ports.Port.accept, SetupWidget.visit, h c rfl]
    | Audio b => rfl
    | Cv b => rfl
    | Event b => rfl
    | Unknown b => rfl
  · intro before after colNum nProc
    have hreg : port.registration lilv = none := by
      simp [Lv2Ports.Port.registration, hvis]
    simp [ctor_eq, List.filterMap_append, List.filterMap_cons, hreg]

/-- C2, at concrete ports: the audio input and the control output of the mixed
processor yield no control, and the processor registers its one input Control
port only. -/
theorem no_widget_unless_input_control_witness :
    ((Lv2Ports.Port.Audio ⟨0, 0, .Input⟩).accept plainLilv ⟨commentUri, none⟩).m_control = none ∧
    ((Lv2Ports.Port.Control ⟨⟨0, 2, .Output⟩, .None, .fin 1⟩).accept plainLilv
        ⟨commentUri, none⟩).m_control = none ∧
    (Lv2ViewProc.Lv2ViewProc plainLilv mixedProc 6 1).registered.map (fun r => r.key) =
      ["steps"] := by
  refine ⟨(no_widget_unless_input_control plainLilv (.Audio ⟨0, 0, .Input⟩)
      (by intro c hc; cases hc)).2.1,
    (no_widget_unless_input_control plainLilv (.Control ⟨⟨0, 2, .Output⟩, .None, .fin 1⟩)
      (by intro c hc; cases hc; decide)).2.1, ?_⟩
  rw [ctor_eq]
  decide

/-- C3: for every input Control port with visualization class Integer, the
visitor builds an Lcd; its digit count is 1 when the declared maximum is at
most 9 (minus infinity included) and 2 for every other maximum: any finite
value above 9, however large, plus infinity and NaN. -/
theorem lcd_digit_count (lilv : Lilv) (setup : SetupWidget) (port : Lv2Ports.Control)
    (hflow : port.m_flow = Lv2Ports.Flow.Input) (hvis : port.m_vis = .Integer) :
    ∃ control : Control,
      ((Lv2Ports.Port.Control port).accept lilv setup).m_control = some control ∧
      (control.kind = .LcdControl 1 ∨ control.kind = .LcdControl 2) ∧
      (∀ q : ℚ, port.m_max = .fin q → q ≤ 9 → control.kind = .LcdControl 1) ∧
      (∀ q : ℚ, port.m_max = .fin q → 9 < q → control.kind = .LcdControl 2) ∧
      (port.m_max = .inf true → control.kind = .LcdControl 1) ∧
      (port.m_max = .inf false → control.kind = .LcdControl 2) ∧
      (port.m_max = .nan → control.kind = .LcdControl 2) := by
  simp only [Lv2Ports.Port.accept, SetupWidget.visit, hflow, if_true, hvis]
  refine ⟨_, rfl, ?_⟩
  cases hprops : lilv.lilv_port_get_value port.m_plugin port.m_port setup.m_commentUri <;>
    cases hmax : port.m_max with
    | nan => simp [LILV_FOREACH_break, Control.setText, Control.setToolTip, Control.new,
        CFloat.le, nineF]
    | inf negative =>
        cases negative <;>
          simp [LILV_FOREACH_break, Control.setText, Control.setToolTip, Control.new,
            CFloat.le, nineF]
    | fin q =>
        by_cases hq : q ≤ 9
        · simp [LILV_FOREACH_break, Control.setText, Control.setToolTip, Control.new,
            CFloat.le, nineF, hq]
        · have hlt : 9 < q := lt_of_not_ge hq
          simp [LILV_FOREACH_break, Control.setText, Control.setToolTip, Control.new,
            CFloat.le, nineF, hq, hlt]

/-- C3, at concrete maxima: 7 and 9 give one digit; 42, the value just above 9
and 100 give two digits. -/
theorem lcd_digit_count_witness :
    ((inputControl 1 .Integer (.fin 7)).visited plainLilv).map (fun c => c.kind) =
      some (.LcdControl 1) ∧
    ((inputControl 1 .Integer (.fin 42)).visited plainLilv).map (fun c => c.kind) =
      some (.LcdControl 2) ∧
    ((inputControl 1 .Integer (.fin 9)).visited plainLilv).map (fun c => c.kind) =
      some (.LcdControl 1) ∧
    ((inputControl 1 .Integer (.fin (9 + 1 / 1048576))).visited plainLilv).map
      (fun c => c.kind) = some (.LcdControl 2) ∧
    ((inputControl 1 .Integer (.fin 100)).visited plainLilv).map (fun c => c.kind) =
      some (.LcdControl 2) := by
  refine ⟨?_, ?_, ?_, ?_, ?_⟩
  · obtain ⟨control, h, _, hle, _⟩ := lcd_digit_count plainLilv ⟨commentUri, none⟩
      ⟨⟨0, 1, .Input⟩, .Integer, .fin 7⟩ rfl rfl
    have hk := hle 7 rfl (by norm_num)
    simp only [Lv2Ports.Port.visited, inputControl, h, Option.map_some', hk]
  · obtain ⟨control, h, _, _, hgt, _⟩ := lcd_digit_count plainLilv ⟨commentUri, none⟩
      ⟨⟨0, 1, .Input⟩, .Integer, .fin 42⟩ rfl rfl
    have hk := hgt 42 rfl (by norm_num)
    simp only [Lv2Ports.Port.visited, inputControl, h, Option.map_some', hk]
  · obtain ⟨control, h, _, hle, _⟩ := lcd_digit_count plainLilv ⟨commentUri, none⟩
      ⟨⟨0, 1, .Input⟩, .Integer, .fin 9⟩ rfl rfl
    have hk := hle 9 rfl (le_refl 9)
    simp only [Lv2Ports.Port.visited, inputControl, h, Option.map_some', hk]
  · obtain ⟨control, h, _, _, hgt, _⟩ := lcd_digit_count plainLilv ⟨commentUri, none⟩
      ⟨⟨0, 1, .Input⟩, .Integer, .fin (9 + 1 / 1048576)⟩ rfl rfl
    have hk := hgt (9 + 1 / 1048576) rfl (by norm_num)
    simp only [Lv2Ports.Port.visited, inputControl, h, Option.map_some', hk]
  · obtain ⟨control, h, _, _, hgt, _⟩ := lcd_digit_count plainLilv ⟨commentUri, none⟩
      ⟨⟨0, 1, .Input⟩, .Integer, .fin 100⟩ rfl rfl
    have hk := hgt 100 rfl (by norm_num)
    simp only [Lv2Ports.Port.visited, inputControl, h, Option.map_some', hk]

/-! ## The per-processor constructor: the registrations -/

/-- C4: the registrations made by the per-processor constructor are, in order,
one per input Control port of the processor in declaration order: keyed by the
LV2 symbol of that port, labelled with its display name, link flag false. The
registered controls are exactly the controls the visitor constructed, each
once, so there are as many registrations as input Control ports, and none when
the processor has no input Control port. -/
theorem registrations_are_input_controls (lilv : Lilv) (ctrlBase : Lv2Proc)
    (colNum nProc : Int) :
    (Lv2ViewProc.Lv2ViewProc lilv ctrlBase colNum nProc).registered.map
        (fun r => (r.key, r.name, r.link)) =
      (ctrlBase.getPorts.filter Lv2Ports.Port.isInputControl).map
        (fun port => (port.symbol lilv, port.base.name lilv, false)) ∧
    (Lv2ViewProc.Lv2ViewProc lilv ctrlBase colNum nProc).registered.map (fun r => r.control) =
      ctrlBase.getPorts.filterMap (Lv2Ports.Port.visited lilv) ∧
    (Lv2ViewProc.Lv2ViewProc lilv ctrlBase colNum nProc).registered.length =
      (ctrlBase.getPorts.filter Lv2Ports.Port.isInputControl).length ∧
    (ctrlBase.getPorts.filter Lv2Ports.Port.isInputControl = [] →
      (Lv2ViewProc.Lv2ViewProc lilv ctrlBase colNum nProc).registered = []) := by
  have hkeys : ∀ ports : List Lv2Ports.Port,
      (ports.filterMap (Lv2Ports.Port.registration lilv)).map
          (fun r => (r.key, r.name, r.link)) =
        (ports.filter Lv2Ports.Port.isInputControl).map
          (fun port => (port.symbol lilv, port.base.name lilv, false)) := by
    intro ports
    induction ports with
    | nil => rfl
    | cons port rest ih =>
        cases hin : port.isInputControl with
        | false =>
            have hv := visited_of_not_inputControl lilv port hin
            simp [List.filterMap_cons, List.filter_cons, Lv2Ports.Port.registration, hv, hin, ih]
        | true =>
            have hv := visited_isSome_of_inputControl lilv port hin
            obtain ⟨control, hc⟩ := Option.isSome_iff_exists.mp hv
            simp [List.filterMap_cons, List.filter_cons, Lv2Ports.Port.registration, hc, hin, ih]
  have hcontrols : ∀ ports : List Lv2Ports.Port,
      (ports.filterMap (Lv2Ports.Port.registration lilv)).map (fun r => r.control) =
        ports.filterMap (Lv2Ports.Port.visited lilv) := by
    intro ports
    induction ports with
    | nil => rfl
    | cons port rest ih =>
        cases hv : port.visited lilv with
        | none => simp [List.filterMap_cons, Lv2Ports.Port.registration, hv, ih]
        | some control => simp [List.filterMap_cons, Lv2Ports.Port.registration, hv, ih]
  have hlen : (ctrlBase.getPorts.filterMap (Lv2Ports.Port.registration lilv)).length =
      (ctrlBase.getPorts.filter Lv2Ports.Port.isInputControl).length := by
    have := congrArg List.length (hkeys ctrlBase.getPorts)
    simpa using this
  rw [ctor_eq]
  refine ⟨hkeys _, hcontrols _, hlen, ?_⟩
  intro hnone
  rw [hnone] at hlen
  exact List.length_eq_zero.mp hlen

/-- C4, at a concrete processor: the mixed processor has one input Control
port between two other ports and registers that port alone; a processor with
no input Control port registers nothing. -/
theorem registrations_are_input_controls_witness :
    (Lv2ViewProc.Lv2ViewProc plainLilv mixedProc 3 2).registered.map
        (fun r => (r.key, r.name, r.link)) = [("steps", "Steps", false)] ∧
    (Lv2ViewProc.Lv2ViewProc plainLilv ⟨[.Audio ⟨0, 0, .Input⟩]⟩ 3 2).registered = [] :=
  ⟨(registrations_are_input_controls plainLilv mixedProc 3 2).1,
    (registrations_are_input_controls plainLilv ⟨[.Audio ⟨0, 0, .Input⟩]⟩ 3 2).2.2.2 rfl⟩

/-- C7: for every input Control port, and whatever list of comment nodes the
library returns for it, the visitor produces the control; its tooltip is the
string form of the first node of the list when there is one (the later nodes
play no part) and stays unset when the list is empty; the per-processor
constructor registers that control either way. -/
theorem tooltip_is_first_comment (lilv : Lilv) (port : Lv2Ports.Control)
    (hflow : port.m_flow = Lv2Ports.Flow.Input) :
    ∃ control : Control,
      ((Lv2Ports.Port.Control port).accept lilv ⟨commentUri, none⟩).m_control = some control ∧
      control.toolTip =
        (lilv.lilv_port_get_value port.m_plugin port.m_port commentUri).head?.map
          lilv_node_as_string ∧
      (∀ (node : LilvNode) (rest : LilvNodes),
        lilv.lilv_port_get_value port.m_plugin port.m_port commentUri = node :: rest →
        control.toolTip = some (lilv_node_as_string node)) ∧
      (lilv.lilv_port_get_value port.m_plugin port.m_port commentUri = [] →
        control.toolTip = none) ∧
      ∀ colNum nProc : Int,
        (Lv2ViewProc.Lv2ViewProc lilv ⟨[.Control port]⟩ colNum nProc).registered.map
          (fun r => r.control) = [control] := by
  have hacc : ((Lv2Ports.Port.Control port).accept lilv ⟨commentUri, none⟩).m_control =
      some (LILV_FOREACH_break (lilv.lilv_port_get_value port.m_plugin port.m_port commentUri)
        (fun nod control => control.setToolTip (lilv_node_as_string nod))
        ((match port.m_vis with
          | .None => Control.new .KnobControl
          | .Integer => Control.new (.LcdControl (if CFloat.le port.m_max nineF then 1 else 2))
          | .Enumeration => Control.new .ComboControl
          | .Toggled => Control.new .CheckControl).setText (port.toPortBase.name lilv))) := by
    simp only [Lv2Ports.Port.accept, SetupWidget.visit, hflow, if_true]
  refine ⟨_, hacc, ?_, ?_, ?_, ?_⟩
  · cases hprops : lilv.lilv_port_get_value port.m_plugin port.m_port commentUri <;>
      cases hvis : port.m_vis <;>
      simp [LILV_FOREACH_break, Control.setText, Control.setToolTip, Control.new]
  · intro node rest hprops
    simp [hprops, LILV_FOREACH_break, Control.setToolTip]
  · intro hprops
    cases hvis : port.m_vis <;>
      simp [hprops, LILV_FOREACH_break, Control.setText, Control.new]
  · intro colNum nProc
    rw [ctor_eq]
    simp [List.filterMap_cons, Lv2Ports.Port.registration, Lv2Ports.Port.visited, hacc]

/-- C7, at the fourth scenario: one input Control port, Integer with maximum
42, with the single comment cutoff frequency, is registered as an Lcd with two
digits whose tooltip is that comment; and the same port without comment
metadata is still registered, with no tooltip. -/
theorem tooltip_is_first_comment_witness :
    (Lv2ViewProc.Lv2ViewProc commentedLilv cutoffProc 1 1).registered.map (fun r => r.control) =
      [⟨.LcdControl 2, some "Cutoff", some "cutoff frequency"⟩] ∧
    (Lv2ViewProc.Lv2ViewProc plainLilv cutoffProc 1 1).registered.map (fun r => r.control) =
      [⟨.LcdControl 2, some "Gain", none⟩] := by
  constructor
  · obtain ⟨control, h, _, hfirst, _, hreg⟩ :=
      tooltip_is_first_comment commentedLilv ⟨⟨0, 0, .Input⟩, .Integer, .fin 42⟩ rfl
    have htip := hfirst ⟨"cutoff frequency"⟩ [] (by decide)
    have hc : control = ⟨.LcdControl 2, some "Cutoff", some "cutoff frequency"⟩ := by
      have h2 : ((Lv2Ports.Port.Control ⟨⟨0, 0, .Input⟩, .Integer, .fin 42⟩).accept
          commentedLilv ⟨commentUri, none⟩).m_control =
          some ⟨.LcdControl 2, some "Cutoff", some "cutoff frequency"⟩ := by decide
      rw [h2] at h
      exact (Option.some.inj h).symm
    rw [← hc]
    exact hreg 1 1
  · obtain ⟨control, h, _, _, hnone, hreg⟩ :=
      tooltip_is_first_comment plainLilv ⟨⟨0, 0, .Input⟩, .Integer, .fin 42⟩ rfl
    have hc : control = ⟨.LcdControl 2, some "Gain", none⟩ := by
      have h2 : ((Lv2Ports.Port.Control ⟨⟨0, 0, .Input⟩, .Integer, .fin 42⟩).accept
          plainLilv ⟨commentUri, none⟩).m_control =
          some ⟨.LcdControl 2, some "Gain", none⟩ := by decide
      rw [h2] at h
      exact (Option.some.inj h).symm
    rw [← hc]
    exact hreg 1 1

/-! ## Lemmas on the aggregate constructor -/

/-- The first part of the constructor for a plugin without comment. -/
theorem buildButtons_nil (lilv : Lilv) (mainWindow : MainWindow) (m_colNum : Int)
    (ctrlBase : Lv2ControlBase)
    (h : lilv.lilv_plugin_get_value ctrlBase.getPlugin commentUri = []) :
    Lv2ViewBase.buildButtons lilv mainWindow m_colNum ctrlBase =
      ⟨none, none, none, none, [], [.stretch 1], [], []⟩ := by
  have h2 : lilv.lilv_plugin_get_value ctrlBase.getPlugin (uri (LILV_NS_RDFS ++ "comment")) = [] := h
  simp [Lv2ViewBase.buildButtons, h2, LILV_FOREACH_break, Lv2ViewBase.empty]

/-- The first part of the constructor for a plugin with a comment. -/
theorem buildButtons_cons (lilv : Lilv) (mainWindow : MainWindow) (m_colNum : Int)
    (ctrlBase : Lv2ControlBase) (node : LilvNode) (rest : LilvNodes)
    (h : lilv.lilv_plugin_get_value ctrlBase.getPlugin commentUri = node :: rest) :
    Lv2ViewBase.buildButtons lilv mainWindow m_colNum ctrlBase =
      ⟨none, none, some ⟨"Help", true, false⟩,
        some ⟨⟨lilv_node_as_string node, true⟩, false, mainWindow.freshOnTop, false⟩,
        [], [.stretch 1, .widget ⟨"Help", true, false⟩ 0],
        [.layout [.stretch 1, .widget ⟨"Help", true, false⟩ 0] .ButtonRow 0 1 m_colNum],
        [⟨lilv_node_as_string node, true⟩]⟩ := by
  have h2 : lilv.lilv_plugin_get_value ctrlBase.getPlugin (uri (LILV_NS_RDFS ++ "comment")) =
      node :: rest := h
  simp [Lv2ViewBase.buildButtons, h2, LILV_FOREACH_break, Lv2ViewBase.empty,
    Lv2ViewBase.addHelp, MainWindow.addWindowedWidget, SubWindow.setDeleteOnClose,
    SubWindow.hide]

/-- The loop over the first n processor indices appends the views of the first
n processors and their grid placements, and changes nothing else. -/
theorem foldl_forProc (lilv : Lilv) (ctrlBase : Lv2ControlBase) (colsEach nProcs : Int)
    (n : Nat) (view : Lv2ViewBase) :
    (List.range n).foldl (Lv2ViewBase.forProc lilv ctrlBase colsEach nProcs) view =
      ⟨view.m_reloadPluginButton, view.m_toggleUIButton, view.m_helpButton, view.m_helpWindow,
        view.m_procViews ++ (ctrlBase.controls.take n).map
          (fun proc => Lv2ViewProc.Lv2ViewProc lilv proc colsEach nProcs),
        view.btnBox,
        view.grid ++ (List.range n).filterMap (fun i : Nat => ctrlBase.controls[i]?.map
          (fun proc => GridItem.procView (Lv2ViewProc.Lv2ViewProc lilv proc colsEach nProcs)
            .ProcRow (i : Int))),
        view.docked⟩ := by
  induction n with
  | zero => simp
  | succ n ih =>
      rw [List.range_succ, List.foldl_append, ih, List.take_succ, List.filterMap_append]
      cases h : ctrlBase.controls[n]? with
      | none => simp [Lv2ViewBase.forProc, h]
      | some proc => simp [Lv2ViewBase.forProc, h]

/-- Without a processor the constructor stops at the division by zero. -/
theorem ctor_of_zero (lilv : Lilv) (mainWindow : MainWindow) (m_colNum : Int)
    (globalLinkLed : Option LedCheckBox) (ctrlBase : Lv2ControlBase)
    (h : ctrlBase.controls.length = 0) :
    Lv2ViewBase.Lv2ViewBase lilv mainWindow m_colNum globalLinkLed ctrlBase =
      .divisionByZero (Lv2ViewBase.buildButtons lilv mainWindow m_colNum ctrlBase) := by
  simp [Lv2ViewBase.Lv2ViewBase, cMod, h]

/-- With at least one processor and a column count they do not divide, the
constructor stops at the assertion. -/
theorem ctor_of_not_dvd (lilv : Lilv) (mainWindow : MainWindow) (m_colNum : Int)
    (globalLinkLed : Option LedCheckBox) (ctrlBase : Lv2ControlBase)
    (hN : 1 ≤ ctrlBase.controls.length)
    (h : m_colNum % (ctrlBase.controls.length : Int) ≠ 0) :
    Lv2ViewBase.Lv2ViewBase lilv mainWindow m_colNum globalLinkLed ctrlBase =
      .assertFailed (Lv2ViewBase.buildButtons lilv mainWindow m_colNum ctrlBase) := by
  have hne : (ctrlBase.controls.length : Int) ≠ 0 := by omega
  have hmod : Int.tmod m_colNum (ctrlBase.controls.length : Int) ≠ 0 := by
    intro h0
    exact h (Int.emod_eq_zero_of_dvd (Int.dvd_of_tmod_eq_zero h0))
  simp [Lv2ViewBase.Lv2ViewBase, cMod, Q_ASSERT, hne, hmod]

/-- With at least one processor and a column count they divide, the constructor
completes. -/
theorem ctor_of_dvd (lilv : Lilv) (mainWindow : MainWindow) (m_colNum : Int)
    (globalLinkLed : Option LedCheckBox) (ctrlBase : Lv2ControlBase)
    (hN : 1 ≤ ctrlBase.controls.length)
    (h : m_colNum % (ctrlBase.controls.length : Int) = 0) :
    Lv2ViewBase.Lv2ViewBase lilv mainWindow m_colNum globalLinkLed ctrlBase =
      .completed (Lv2ViewBase.addLinkLed m_colNum globalLinkLed
        ((List.range ctrlBase.controls.length).foldl
          (Lv2ViewBase.forProc lilv ctrlBase (m_colNum / (ctrlBase.controls.length : Int))
            (ctrlBase.controls.length : Int))
          (Lv2ViewBase.buildButtons lilv mainWindow m_colNum ctrlBase))) := by
  have hne : (ctrlBase.controls.length : Int) ≠ 0 := by omega
  have hdvd : (ctrlBase.controls.length : Int) ∣ m_colNum := Int.dvd_of_emod_eq_zero h
  have hmod : Int.tmod m_colNum (ctrlBase.controls.length : Int) = 0 :=
    Int.tmod_eq_zero_of_dvd hdvd
  have hdiv : Int.tdiv m_colNum (ctrlBase.controls.length : Int) =
      m_colNum / (ctrlBase.controls.length : Int) := Int.tdiv_eq_ediv_of_dvd hdvd
  simp [Lv2ViewBase.Lv2ViewBase, cMod, cDiv, Q_ASSERT, hne, hmod, hdiv]

/-! ## The aggregate constructor: acceptance -/

/-- C5, as stated, fails: with no processor and six columns the constructor
does not complete, yet no assertion fails; the run stops at the division by
zero in `m_colNum % nProcs`, before `Q_ASSERT` has a value to test. -/
theorem zero_processors_is_no_assertion :
    (Lv2ViewBase.Lv2ViewBase plainLilv shownMainWindow 6 none emptyBase).accepted = false ∧
    (Lv2ViewBase.Lv2ViewBase plainLilv shownMainWindow 6 none emptyBase).assertionFailure =
      false ∧
    Lv2ViewBase.Lv2ViewBase plainLilv shownMainWindow 6 none emptyBase =
      .divisionByZero ⟨none, none, none, none, [], [.stretch 1], [], []⟩ := by
  decide

/-- C5, amended: the constructor accepts a control base with N processors and
a column count C exactly when N is at least 1 and C mod N is 0; and for every
N of at least 1 with C mod N different from 0, construction fails with the
assertion. Two processors are accepted with six columns and rejected by the
assertion with five. -/
theorem accepts_iff_columns_divide :
    (∀ (lilv : Lilv) (mainWindow : MainWindow) (m_colNum : Int)
        (globalLinkLed : Option LedCheckBox) (ctrlBase : Lv2ControlBase),
      ((Lv2ViewBase.Lv2ViewBase lilv mainWindow m_colNum globalLinkLed ctrlBase).accepted = true ↔
        (1 ≤ ctrlBase.controls.length ∧ m_colNum % (ctrlBase.controls.length : Int) = 0)) ∧
      (1 ≤ ctrlBase.controls.length → m_colNum % (ctrlBase.controls.length : Int) ≠ 0 →
        (Lv2ViewBase.Lv2ViewBase lilv mainWindow m_colNum globalLinkLed
          ctrlBase).assertionFailure = true)) ∧
    (Lv2ViewBase.Lv2ViewBase plainLilv shownMainWindow 6 none stereoBase).accepted = true ∧
    (Lv2ViewBase.Lv2ViewBase plainLilv shownMainWindow 5 none stereoBase).assertionFailure =
      true := by
  refine ⟨?_, by decide, by decide⟩
  intro lilv mainWindow m_colNum globalLinkLed ctrlBase
  by_cases hN : 1 ≤ ctrlBase.controls.length
  · by_cases hmod : m_colNum % (ctrlBase.controls.length : Int) = 0
    · rw [ctor_of_dvd lilv mainWindow m_colNum globalLinkLed ctrlBase hN hmod]
      simp [Outcome.accepted, hN, hmod]
    · rw [ctor_of_not_dvd lilv mainWindow m_colNum globalLinkLed ctrlBase hN hmod]
      simp [Outcome.accepted, Outcome.assertionFailure, hmod]
  · have h0 : ctrlBase.controls.length = 0 := by omega
    rw [ctor_of_zero lilv mainWindow m_colNum globalLinkLed ctrlBase h0]
    simp [Outcome.accepted, hN]

/-- C5, amended, at concrete inputs: one processor with seven columns is
accepted, and three processors with seven columns fail with the assertion. -/
theorem accepts_iff_columns_divide_witness :
    (Lv2ViewBase.Lv2ViewBase plainLilv shownMainWindow 7 none monoBase).accepted = true ∧
    (Lv2ViewBase.Lv2ViewBase plainLilv shownMainWindow 7 none
      ⟨0, [scenarioProc, cutoffProc, mixedProc], true⟩).assertionFailure = true :=
  ⟨((accepts_iff_columns_divide.1 plainLilv shownMainWindow 7 none monoBase).1).2
      ⟨by decide, by decide⟩,
    (accepts_iff_columns_divide.1 plainLilv shownMainWindow 7 none
      ⟨0, [scenarioProc, cutoffProc, mixedProc], true⟩).2 (by decide) (by decide)⟩

/-! ## The aggregate constructor: the per-processor views -/

/-- C6: for every control base with N processors, N at least 1, and every
column count C with C mod N equal to 0, the constructor completes; the list
`m_procViews` then has length N, and for every index i below N its i-th
element is the per-processor view constructed from processor i with column
count C / N and processor count N, and that view is attached to the grid in
the processor row at column i. -/
theorem procViews_follow_processors (lilv : Lilv) (mainWindow : MainWindow) (m_colNum : Int)
    (globalLinkLed : Option LedCheckBox) (ctrlBase : Lv2ControlBase)
    (hN : 1 ≤ ctrlBase.controls.length)
    (hmod : m_colNum % (ctrlBase.controls.length : Int) = 0) :
    ∃ view : Lv2ViewBase,
      Lv2ViewBase.Lv2ViewBase lilv mainWindow m_colNum globalLinkLed ctrlBase =
        .completed view ∧
      view.m_procViews.length = ctrlBase.controls.length ∧
      ∀ (i : Nat) (hi : i < ctrlBase.controls.length),
        view.m_procViews[i]? =
          some (Lv2ViewProc.Lv2ViewProc lilv ctrlBase.controls[i]
            (m_colNum / (ctrlBase.controls.length : Int)) (ctrlBase.controls.length : Int)) ∧
        GridItem.procView
          (Lv2ViewProc.Lv2ViewProc lilv ctrlBase.controls[i]
            (m_colNum / (ctrlBase.controls.length : Int)) (ctrlBase.controls.length : Int))
          .ProcRow (i : Int) ∈ view.grid := by
  refine ⟨_, ctor_of_dvd lilv mainWindow m_colNum globalLinkLed ctrlBase hN hmod, ?_, ?_⟩
  · rw [foldl_forProc]
    have hb : (Lv2ViewBase.buildButtons lilv mainWindow m_colNum ctrlBase).m_procViews = [] := by
      cases hprops : lilv.lilv_plugin_get_value ctrlBase.getPlugin commentUri with
      | nil => rw [buildButtons_nil lilv mainWindow m_colNum ctrlBase hprops]
      | cons node rest => rw [buildButtons_cons lilv mainWindow m_colNum ctrlBase node rest hprops]
    cases globalLinkLed <;> simp [Lv2ViewBase.addLinkLed, hb]
  · intro i hi
    rw [foldl_forProc]
    have hb : (Lv2ViewBase.buildButtons lilv mainWindow m_colNum ctrlBase).m_procViews = [] := by
      cases hprops : lilv.lilv_plugin_get_value ctrlBase.getPlugin commentUri with
      | nil => rw [buildButtons_nil lilv mainWindow m_colNum ctrlBase hprops]
      | cons node rest => rw [buildButtons_cons lilv mainWindow m_colNum ctrlBase node rest hprops]
    have hget : ctrlBase.controls[i]? = some ctrlBase.controls[i] := List.getElem?_eq_getElem hi
    constructor
    · cases globalLinkLed <;>
        simp [Lv2ViewBase.addLinkLed, hb, List.getElem?_map, hget]
    · have hmem : GridItem.procView
          (Lv2ViewProc.Lv2ViewProc lilv ctrlBase.controls[i]
            (m_colNum / (ctrlBase.controls.length : Int)) (ctrlBase.controls.length : Int))
          .ProcRow (i : Int) ∈
          (List.range ctrlBase.controls.length).filterMap (fun i : Nat =>
            ctrlBase.controls[i]?.map (fun proc => GridItem.procView
              (Lv2ViewProc.Lv2ViewProc lilv proc (m_colNum / (ctrlBase.controls.length : Int))
                (ctrlBase.controls.length : Int)) .ProcRow (i : Int))) := by
        rw [List.mem_filterMap]
        exact ⟨i, List.mem_range.mpr hi, by rw [hget]; rfl⟩
      cases globalLinkLed <;>
        simp only [Lv2ViewBase.addLinkLed, List.mem_append] <;> tauto

/-- C6, at the second scenario: two processors and six columns give two
per-processor views of three columns each, the first and the second built
from the first and the second processor. -/
theorem procViews_follow_processors_witness :
    ∃ view : Lv2ViewBase,
      Lv2ViewBase.Lv2ViewBase plainLilv shownMainWindow 6 none stereoBase = .completed view ∧
      view.m_procViews.length = 2 ∧
      view.m_procViews[1]? = some (Lv2ViewProc.Lv2ViewProc plainLilv scenarioProc 3 2) ∧
      GridItem.procView (Lv2ViewProc.Lv2ViewProc plainLilv scenarioProc 3 2) .ProcRow 1 ∈
        view.grid := by
  obtain ⟨view, h1, h2, h3⟩ :=
    procViews_follow_processors plainLilv shownMainWindow 6 none stereoBase
      (by decide) (by decide)
  exact ⟨view, h1, h2, (h3 1 (by decide)).1, (h3 1 (by decide)).2⟩

/-! ## The aggregate constructor: the help affordance -/

/-- Whatever the outcome, the help members, the button box and the docked
widgets are those of the first part of the constructor. -/
theorem view_help_fields (lilv : Lilv) (mainWindow : MainWindow) (m_colNum : Int)
    (globalLinkLed : Option LedCheckBox) (ctrlBase : Lv2ControlBase) :
    (Lv2ViewBase.Lv2ViewBase lilv mainWindow m_colNum globalLinkLed ctrlBase).view.m_helpButton =
      (Lv2ViewBase.buildButtons lilv mainWindow m_colNum ctrlBase).m_helpButton ∧
    (Lv2ViewBase.Lv2ViewBase lilv mainWindow m_colNum globalLinkLed ctrlBase).view.m_helpWindow =
      (Lv2ViewBase.buildButtons lilv mainWindow m_colNum ctrlBase).m_helpWindow ∧
    (Lv2ViewBase.Lv2ViewBase lilv mainWindow m_colNum globalLinkLed ctrlBase).view.btnBox =
      (Lv2ViewBase.buildButtons lilv mainWindow m_colNum ctrlBase).btnBox ∧
    (Lv2ViewBase.Lv2ViewBase lilv mainWindow m_colNum globalLinkLed ctrlBase).view.docked =
      (Lv2ViewBase.buildButtons lilv mainWindow m_colNum ctrlBase).docked := by
  by_cases hN : 1 ≤ ctrlBase.controls.length
  · by_cases hmod : m_colNum % (ctrlBase.controls.length : Int) = 0
    · rw [ctor_of_dvd lilv mainWindow m_colNum globalLinkLed ctrlBase hN hmod, foldl_forProc]
      cases globalLinkLed <;> simp [Outcome.view, Lv2ViewBase.addLinkLed]
    · rw [ctor_of_not_dvd lilv mainWindow m_colNum globalLinkLed ctrlBase hN hmod]
      simp [Outcome.view]
  · have h0 : ctrlBase.controls.length = 0 := by omega
    rw [ctor_of_zero lilv mainWindow m_colNum globalLinkLed ctrlBase h0]
    simp [Outcome.view]

/-- C8: the view the constructor leaves has a Help button and a help subwindow
exactly when the comment query on the plugin returns at least one node. When
it does, the button box holds one button, the Help button; one label has been
docked into the host, its text is the string form of the first node, whatever
nodes follow; and the help subwindow shows that label and is hidden. When the
query returns no node, the Help button and the help subwindow stay null, the
button box holds no button and nothing has been docked. -/
theorem help_iff_plugin_comment (lilv : Lilv) (mainWindow : MainWindow) (m_colNum : Int)
    (globalLinkLed : Option LedCheckBox) (ctrlBase : Lv2ControlBase) :
    ((Lv2ViewBase.Lv2ViewBase lilv mainWindow m_colNum globalLinkLed
        ctrlBase).view.m_helpButton.isSome = true ↔
      lilv.lilv_plugin_get_value ctrlBase.getPlugin commentUri ≠ []) ∧
    ((Lv2ViewBase.Lv2ViewBase lilv mainWindow m_colNum globalLinkLed
        ctrlBase).view.m_helpWindow.isSome = true ↔
      lilv.lilv_plugin_get_value ctrlBase.getPlugin commentUri ≠ []) ∧
    (∀ (node : LilvNode) (rest : LilvNodes),
      lilv.lilv_plugin_get_value ctrlBase.getPlugin commentUri = node :: rest →
      (Lv2ViewBase.Lv2ViewBase lilv mainWindow m_colNum globalLinkLed
          ctrlBase).view.m_helpButton = some ⟨"Help", true, false⟩ ∧
      (Lv2ViewBase.Lv2ViewBase lilv mainWindow m_colNum globalLinkLed ctrlBase).view.btnBox =
        [.stretch 1, .widget ⟨"Help", true, false⟩ 0] ∧
      (Lv2ViewBase.Lv2ViewBase lilv mainWindow m_colNum globalLinkLed ctrlBase).view.docked =
        [⟨lilv_node_as_string node, true⟩] ∧
      ∃ helpWindow : SubWindow,
        (Lv2ViewBase.Lv2ViewBase lilv mainWindow m_colNum globalLinkLed
          ctrlBase).view.m_helpWindow = some helpWindow ∧
        helpWindow.widget.text = lilv_node_as_string node ∧
        helpWindow.visible = false) ∧
    (lilv.lilv_plugin_get_value ctrlBase.getPlugin commentUri = [] →
      (Lv2ViewBase.Lv2ViewBase lilv mainWindow m_colNum globalLinkLed
          ctrlBase).view.m_helpButton = none ∧
      (Lv2ViewBase.Lv2ViewBase lilv mainWindow m_colNum globalLinkLed
          ctrlBase).view.m_helpWindow = none ∧
      (Lv2ViewBase.Lv2ViewBase lilv mainWindow m_colNum globalLinkLed ctrlBase).view.btnBox =
        [.stretch 1] ∧
      (Lv2ViewBase.Lv2ViewBase lilv mainWindow m_colNum globalLinkLed ctrlBase).view.docked =
        []) := by
  obtain ⟨hb, hw, hbox, hd⟩ := view_help_fields lilv mainWindow m_colNum globalLinkLed ctrlBase
  rw [hb, hw, hbox, hd]
  cases hprops : lilv.lilv_plugin_get_value ctrlBase.getPlugin commentUri with
  | nil =>
      rw [buildButtons_nil lilv mainWindow m_colNum ctrlBase hprops]
      simp
  | cons node rest =>
      rw [buildButtons_cons lilv mainWindow m_colNum ctrlBase node rest hprops]
      simp

/-- C8, at the fifth scenario: a plugin with the comments A and B gets a help
label with the text A, in a hidden help subwindow. -/
theorem help_iff_plugin_comment_witness :
    (Lv2ViewBase.Lv2ViewBase commentedLilv shownMainWindow 6 none monoBase).view.docked =
      [⟨"A", true⟩] ∧
    ∃ helpWindow : SubWindow,
      (Lv2ViewBase.Lv2ViewBase commentedLilv shownMainWindow 6 none monoBase).view.m_helpWindow =
        some helpWindow ∧
      helpWindow.widget.text = "A" ∧ helpWindow.visible = false := by
  obtain ⟨_, _, hcons, _⟩ :=
    help_iff_plugin_comment commentedLilv shownMainWindow 6 none monoBase
  obtain ⟨_, _, hd, hw⟩ := hcons ⟨"A"⟩ [⟨"B"⟩] (by decide)
  exact ⟨hd, hw⟩

/-! ## The help toggle -/

/-- C9: when the view has a help subwindow, the help toggle with true leaves it
shown and raised, and the toggle with true followed by the toggle with false
leaves it hidden; when the view has no help subwindow, the toggle with either
argument returns the view unchanged. -/
theorem toggleHelp_shows_then_hides (view : Lv2ViewBase) :
    (∀ helpWindow : SubWindow, view.m_helpWindow = some helpWindow →
      (∃ shown : SubWindow, (view.toggleHelp true).m_helpWindow = some shown ∧
        shown.visible = true ∧ shown.onTop = true) ∧
      (∃ hidden : SubWindow, ((view.toggleHelp true).toggleHelp false).m_helpWindow =
        some hidden ∧ hidden.visible = false) ∧
      (∃ hidden : SubWindow, (view.toggleHelp false).m_helpWindow = some hidden ∧
        hidden.visible = false)) ∧
    (view.m_helpWindow = none → ∀ visible : Bool, view.toggleHelp visible = view) := by
  constructor
  · intro helpWindow h
    simp [Lv2ViewBase.toggleHelp, h, SubWindow.show, SubWindow.raise, SubWindow.hide]
  · intro h visible
    simp [Lv2ViewBase.toggleHelp, h]

/-- C9, at concrete views: on the view built for a plugin with a comment, whose
host hands out subwindows shown, the toggle with true then false leaves the
help subwindow hidden; on the view built for a plugin without comment the
toggle changes nothing. -/
theorem toggleHelp_shows_then_hides_witness :
    (∃ hidden : SubWindow,
      (((Lv2ViewBase.Lv2ViewBase commentedLilv shownMainWindow 6 none monoBase).view.toggleHelp
        true).toggleHelp false).m_helpWindow = some hidden ∧ hidden.visible = false) ∧
    (Lv2ViewBase.Lv2ViewBase plainLilv shownMainWindow 6 none monoBase).view.toggleHelp true =
      (Lv2ViewBase.Lv2ViewBase plainLilv shownMainWindow 6 none monoBase).view :=
  ⟨((toggleHelp_shows_then_hides
      (Lv2ViewBase.Lv2ViewBase commentedLilv shownMainWindow 6 none monoBase).view).1
      ⟨⟨"A", true⟩, false, true, false⟩ (by decide)).2.1,
    (toggleHelp_shows_then_hides
      (Lv2ViewBase.Lv2ViewBase plainLilv shownMainWindow 6 none monoBase).view).2
      (by decide) true⟩

/-! ## The failing path of the aggregate constructor -/

/-- C10, as stated, fails: for a plugin with a comment, two processors and five
columns, the constructor does not complete, and at that point the Help button
exists, the help label has been docked into the host main window and the button
box has been attached to the grid. -/
theorem failing_path_keeps_help :
    (Lv2ViewBase.Lv2ViewBase commentedLilv shownMainWindow 5 none stereoBase).accepted = false ∧
    (Lv2ViewBase.Lv2ViewBase commentedLilv shownMainWindow 5 none stereoBase).view.m_helpButton =
      some ⟨"Help", true, false⟩ ∧
    (Lv2ViewBase.Lv2ViewBase commentedLilv shownMainWindow 5 none stereoBase).view.docked =
      [⟨"A", true⟩] ∧
    (Lv2ViewBase.Lv2ViewBase commentedLilv shownMainWindow 5 none stereoBase).view.grid =
      [.layout [.stretch 1, .widget ⟨"Help", true, false⟩ 0] .ButtonRow 0 1 5] := by
  decide

/-- C10, amended: whenever the constructor does not complete, `m_procViews` is
empty and no per-processor view and no link indicator has been attached to the
grid. What has been built by then depends on the comment query on the plugin
alone: when it returns no node, there is no Help button, no help subwindow,
nothing docked into the host main window and nothing attached to the grid;
when it returns a node, the Help button and the help subwindow exist, one label
has been docked and the button box is the one item attached to the grid. -/
theorem failing_path_view (lilv : Lilv) (mainWindow : MainWindow) (m_colNum : Int)
    (globalLinkLed : Option LedCheckBox) (ctrlBase : Lv2ControlBase)
    (hfail : (Lv2ViewBase.Lv2ViewBase lilv mainWindow m_colNum globalLinkLed
      ctrlBase).accepted = false) :
    (Lv2ViewBase.Lv2ViewBase lilv mainWindow m_colNum globalLinkLed ctrlBase).view.m_procViews =
      [] ∧
    (∀ item ∈ (Lv2ViewBase.Lv2ViewBase lilv mainWindow m_colNum globalLinkLed
        ctrlBase).view.grid,
      ∃ btnBox : List BoxItem, item = .layout btnBox .ButtonRow 0 1 m_colNum) ∧
    (lilv.lilv_plugin_get_value ctrlBase.getPlugin commentUri = [] →
      (Lv2ViewBase.Lv2ViewBase lilv mainWindow m_colNum globalLinkLed
          ctrlBase).view.m_helpButton = none ∧
      (Lv2ViewBase.Lv2ViewBase lilv mainWindow m_colNum globalLinkLed
          ctrlBase).view.m_helpWindow = none ∧
      (Lv2ViewBase.Lv2ViewBase lilv mainWindow m_colNum globalLinkLed ctrlBase).view.docked =
        [] ∧
      (Lv2ViewBase.Lv2ViewBase lilv mainWindow m_colNum globalLinkLed ctrlBase).view.grid =
        []) ∧
    (lilv.lilv_plugin_get_value ctrlBase.getPlugin commentUri ≠ [] →
      (Lv2ViewBase.Lv2ViewBase lilv mainWindow m_colNum globalLinkLed
          ctrlBase).view.m_helpButton.isSome = true ∧
      (Lv2ViewBase.Lv2ViewBase lilv mainWindow m_colNum globalLinkLed
          ctrlBase).view.m_helpWindow.isSome = true ∧
      (Lv2ViewBase.Lv2ViewBase lilv mainWindow m_colNum globalLinkLed
          ctrlBase).view.docked.length = 1 ∧
      (Lv2ViewBase.Lv2ViewBase lilv mainWindow m_colNum globalLinkLed ctrlBase).view.grid =
        [.layout (Lv2ViewBase.Lv2ViewBase lilv mainWindow m_colNum globalLinkLed
          ctrlBase).view.btnBox .ButtonRow 0 1 m_colNum]) := by
  have hview : (Lv2ViewBase.Lv2ViewBase lilv mainWindow m_colNum globalLinkLed ctrlBase).view =
      Lv2ViewBase.buildButtons lilv mainWindow m_colNum ctrlBase := by
    by_cases hN : 1 ≤ ctrlBase.controls.length
    · by_cases hmod : m_colNum % (ctrlBase.controls.length : Int) = 0
      · rw [ctor_of_dvd lilv mainWindow m_colNum globalLinkLed ctrlBase hN hmod] at hfail
        simp [Outcome.accepted] at hfail
      · rw [ctor_of_not_dvd lilv mainWindow m_colNum globalLinkLed ctrlBase hN hmod]
        rfl
    · have h0 : ctrlBase.controls.length = 0 := by omega
      rw [ctor_of_zero lilv mainWindow m_colNum globalLinkLed ctrlBase h0]
      rfl
  rw [hview]
  cases hprops : lilv.lilv_plugin_get_value ctrlBase.getPlugin commentUri with
  | nil =>
      rw [buildButtons_nil lilv mainWindow m_colNum ctrlBase hprops]
      simp
  | cons node rest =>
      rw [buildButtons_cons lilv mainWindow m_colNum ctrlBase node rest hprops]
      simp

/-- C10, amended, at concrete inputs: with two processors and five columns the
constructor fails; for the plugin without comment nothing has been built by
then, for the plugin with a comment the help label has been docked and no
per-processor view exists. -/
theorem failing_path_view_witness :
    (Lv2ViewBase.Lv2ViewBase plainLilv shownMainWindow 5 none stereoBase).view.grid = [] ∧
    (Lv2ViewBase.Lv2ViewBase plainLilv shownMainWindow 5 none stereoBase).view.m_helpButton =
      none ∧
    (Lv2ViewBase.Lv2ViewBase commentedLilv shownMainWindow 5 none stereoBase).view.m_procViews =
      [] ∧
    (Lv2ViewBase.Lv2ViewBase commentedLilv shownMainWindow 5 none stereoBase).view.docked.length =
      1 :=
  ⟨((failing_path_view plainLilv shownMainWindow 5 none stereoBase (by decide)).2.2.1
      (by decide)).2.2.2,
    ((failing_path_view plainLilv shownMainWindow 5 none stereoBase (by decide)).2.2.1
      (by decide)).1,
    (failing_path_view commentedLilv shownMainWindow 5 none stereoBase (by decide)).1,
    ((failing_path_view commentedLilv shownMainWindow 5 none stereoBase (by decide)).2.2.2
      (by decide)).2.2.1⟩

end Lv2View
